import Mathlib

/-!
Verification development for the resume-editor PDF export pipeline
(`backend-app/services/pdf_service.py` and `backend-app/api/export.py`).

Strings are modelled as `List Char`; the Python string primitives used by
the source (`str.replace`, `str.find`, `str.rfind`, `str.strip`, slicing,
truthiness) are embedded below with Python's semantics (negative indices,
`-1` for "not found", all-occurrence replacement, clamped slices).
-/

/-- Whitespace characters recognised by Python's `str.strip()`. -/
def isPySpace (c : Char) : Bool :=
  c = ' ' || c = '\t' || c = '\n' || c = '\x0d' || c = '\x0b' || c = '\x0c'

/-- Python `s.strip()`: drop leading and trailing whitespace. -/
def pyStripL (s : List Char) : List Char :=
  ((s.dropWhile isPySpace).reverse.dropWhile isPySpace).reverse

/-- Fuel-driven worker for Python `str.replace`: replaces every
leftmost non-overlapping occurrence of `old` by `new`.  The fuel is an upper
bound on the remaining length, so `pyReplace` below always supplies enough. -/
def pyReplaceAux (old new : List Char) : Nat → List Char → List Char
  | _, [] => []
  | 0, s => s
  | fuel + 1, c :: rest =>
    if old ≠ [] ∧ old.isPrefixOf (c :: rest) = true then
      new ++ pyReplaceAux old new fuel ((c :: rest).drop old.length)
    else
      c :: pyReplaceAux old new fuel rest

/-- Python `s.replace(old, new)` (our callers never pass an empty `old`). -/
def pyReplace (s old new : List Char) : List Char :=
  pyReplaceAux old new s.length s

/-- Indices at which `sub` occurs in `s`. -/
def occIdxs (s sub : List Char) : List Nat :=
  (List.range (s.length + 1)).filter (fun i => sub.isPrefixOf (s.drop i))

/-- Python `s.find(sub, start)`: index of the first occurrence at or after
`start` (negative `start` counts from the end, clamped at 0), else `-1`. -/
def pyFindFrom (s sub : List Char) (start : Int) : Int :=
  let st : Nat := if start < 0 then ((s.length : Int) + start).toNat else start.toNat
  match (occIdxs (s.drop st) sub).head? with
  | some i => ((st + i : Nat) : Int)
  | none => -1

/-- Python `s.find(sub)`. -/
def pyFind (s sub : List Char) : Int := pyFindFrom s sub 0

/-- Python `s.rfind(sub, b, e)`: index of the last occurrence of `sub`
lying entirely inside the slice `s[b:e]`, else `-1`. -/
def pyRFind (s sub : List Char) (b e : Int) : Int :=
  let n := s.length
  let bb : Nat := if b < 0 then ((n : Int) + b).toNat else min b.toNat n
  let ee : Nat := if e < 0 then ((n : Int) + e).toNat else min e.toNat n
  match (occIdxs ((s.take ee).drop bb) sub).getLast? with
  | some i => ((bb + i : Nat) : Int)
  | none => -1

/-- Python `s[:k]` (negative `k` counts from the end). -/
def pySliceTo (s : List Char) (k : Int) : List Char :=
  s.take (if k < 0 then ((s.length : Int) + k).toNat else k.toNat)

/-- Python `s[k:]` (negative `k` counts from the end). -/
def pySliceFrom (s : List Char) (k : Int) : List Char :=
  s.drop (if k < 0 then ((s.length : Int) + k).toNat else k.toNat)

/-- Python's `sub in s` substring test. -/
def hasSub : (s pat : List Char) → Bool
  | [], pat => pat.isEmpty
  | c :: t, pat => pat.isPrefixOf (c :: t) || hasSub t pat

/-- Python truthiness of an optional list (absent or empty is falsy). -/
def truthyList {α : Type} : Option (List α) → Bool
  | none => false
  | some l => !l.isEmpty

/-- Python truthiness of an optional string (absent or empty is falsy). -/
def truthyStr (o : Option String) : Bool := o.getD "" ≠ ""

/-!
## Data model

`_render_resume_template` and `_render_experience_section` receive a plain
Python dict (`resume.model_dump()` or caller-supplied JSON) and access it
exclusively through `.get`/`in` on the keys below, so an entry is modelled
as a record of optional fields (absent key = `none`).
-/

/-- One experience-entry dict as read by `_render_experience_section`
(`pdf_service.py` lines 241-272): keys `role`, `organization`, `location`,
`startDate`, `endDate`, `bullets`, each possibly absent. -/
structure ExpEntry where
  role : Option String
  organization : Option String
  location : Option String
  startDate : Option String
  endDate : Option String
  bullets : Option (List String)
deriving DecidableEq

/-- One element of the `skills` list (`pdf_service.py` lines 280-296):
either a dict with `name` and `skills` keys (the `SkillSubsection` format)
or a bare string (the legacy fallback format). -/
inductive SkillItem where
  | group (name : String) (skills : List String)
  | plain (s : String)
deriving DecidableEq

/-- The resume dict as read by `_render_resume_template`
(`pdf_service.py` lines 186-233): keys `title`, `summary`, `experience`,
`skills`, each possibly absent. -/
structure ResumeData where
  title : Option String
  summary : Option String
  experience : Option (List ExpEntry)
  skills : Option (List SkillItem)
deriving DecidableEq

/-- Theme options are an opaque configuration map; `_render_resume_template`
receives them but never reads them. -/
def ThemeOptions : Type := List (String × String)

/-!
## Template markers

The literal marker strings that `_render_resume_template` manipulates
(braces are written `\x7b`/`\x7d`, apostrophes `\x27`).
-/

def mTitle : List Char := "\x7b\x7b title \x7d\x7d".data
def mSummary : List Char := "\x7b\x7b summary \x7d\x7d".data
def mIfExp : List Char := "\x7b% if experience %\x7d".data
def mEndif : List Char := "\x7b% endif %\x7d".data
def mForExp : List Char := "\x7b% for exp in experience %\x7d".data
def mEndfor : List Char := "\x7b% endfor %\x7d".data
def mExpRole : List Char := "\x7b\x7b exp.role \x7d\x7d".data
def mExpOrg : List Char := "\x7b\x7b exp.organization \x7d\x7d".data
def mExpLoc : List Char := "\x7b\x7b exp.location \x7d\x7d".data
def mExpStart : List Char := "\x7b\x7b exp.startDate \x7d\x7d".data
def mExpEnd : List Char := "\x7b\x7b exp.endDate or \x27Present\x27 \x7d\x7d".data
def mForBullet : List Char := "\x7b% for bullet in exp.bullets %\x7d".data
def mBullet : List Char := "\x7b\x7b bullet \x7d\x7d".data
def mIfSkills : List Char := "\x7b% if skills %\x7d".data
def mSummaryStart : List Char := "<!-- Summary -->".data
def mSummaryEnd : List Char := "<!-- /Summary -->".data

/-!
## Template renderer (`pdf_service.py` lines 171-312)
-/

/-- The location line of one experience item: the inline conditional
`f'<div class="experience-location">{exp.get("location", "")}</div>'
if exp.get('location') else ''` on line 261 of `pdf_service.py`. -/
def location_div (e : ExpEntry) : List Char :=
  if e.location.getD "" = "" then []
  else "<div class=\"experience-location\">".data ++ (e.location.getD "").data
       ++ "</div>".data

/-- The bullet list of one experience item (`pdf_service.py` lines 248-253). -/
def bullets_html (e : ExpEntry) : List Char :=
  if truthyList e.bullets then
    "<ul class=\x27experience-bullets\x27>".data
    ++ ((e.bullets.getD []).map
          (fun b => "<li>".data ++ b.data ++ "</li>".data)).flatten
    ++ "</ul>".data
  else []

/-- The `exp_html` f-string for one entry (`pdf_service.py` lines 244-269).
`end_date = exp.get('endDate') or 'Present'`, so an absent or empty end date
renders as `Present`.  The dead local `location` on line 246 (computed and
never used) is not reproduced. -/
def render_experience_item (e : ExpEntry) : List Char :=
  let end_date : List Char :=
    if e.endDate.getD "" = "" then "Present".data else (e.endDate.getD "").data
  "\n            <div class=\"experience-item\">\n                <div class=\"experience-header\">\n                    <div>\n                        <div class=\"experience-role\">".data
  ++ (e.role.getD "").data
  ++ "</div>\n                        <div class=\"experience-organization\">".data
  ++ (e.organization.getD "").data
  ++ "</div>\n                        ".data
  ++ location_div e
  ++ "\n                    </div>\n                    <div class=\"experience-dates\">\n                        ".data
  ++ (e.startDate.getD "").data
  ++ " - ".data
  ++ end_date
  ++ "\n                    </div>\n                </div>\n                ".data
  ++ bullets_html e
  ++ "\n            </div>\n            ".data

/-- `_render_experience_section` (`pdf_service.py` lines 241-272):
renders each entry and joins the parts. -/
def render_experience_section (experience_data : List ExpEntry) : List Char :=
  (experience_data.map render_experience_item).flatten

/-- One rendered skill subsection (`pdf_service.py` lines 285-291),
including the f-string's literal indentation. -/
def skill_subsection_html (name : String) (skills_list : List String) : List Char :=
  let skills_html :=
    (skills_list.map
      (fun skill => "<span class=\"skill-item\">".data ++ skill.data ++ "</span>".data)).flatten
  "\n                    <div class=\"skill-subsection\">\n                        <div class=\"skill-subsection-title\">".data
  ++ name.data
  ++ "</div>\n                        <div class=\"skill-list\">".data
  ++ skills_html
  ++ "</div>\n                    </div>\n                    ".data

/-- `_render_skills_section` (`pdf_service.py` lines 274-298).  A `group`
item with an empty inner list contributes nothing (the source only appends
`subsection_html` when `skills_list` is truthy). -/
def render_skills_section (skills_data : List SkillItem) : List Char :=
  if skills_data.isEmpty then []
  else
    let subsections :=
      (skills_data.map
        (fun item =>
          match item with
          | SkillItem.group name ls =>
            if ls.isEmpty then [] else skill_subsection_html name ls
          | SkillItem.plain s =>
            "<span class=\"skill-item\">".data ++ s.data ++ "</span>".data)).flatten
    "<div class=\"skills-container\">".data ++ subsections ++ "</div>".data

/-- `_remove_template_section` (`pdf_service.py` lines 300-312): only the
`summary` section is ever removed (between the `<!-- Summary -->` and
`<!-- /Summary -->` markers); any other section name returns the input
unchanged. -/
def remove_template_section (html_content : List Char) (section_name : String) : List Char :=
  if section_name = "summary" then
    let start_idx := pyFind html_content mSummaryStart
    let end_idx := pyFind html_content mSummaryEnd
    if start_idx ≠ -1 ∧ end_idx ≠ -1 then
      pySliceTo html_content start_idx
      ++ pySliceFrom html_content (end_idx + (mSummaryEnd.length : Int))
    else html_content
  else html_content

/-- The skills-branch surgery of `_render_resume_template`
(`pdf_service.py` lines 213-226): locate the `\x7b% if skills %\x7d` ...
`\x7b% endif %\x7d` region and splice the rendered skills HTML into it. -/
def splice_skills (html_content skills_html : List Char) : List Char :=
  let skills_section_start := pyFind html_content mIfSkills
  let skills_section_end :=
    pyFindFrom html_content mEndif skills_section_start + (mEndif.length : Int)
  if skills_section_start ≠ -1 ∧ skills_section_end ≠ -1 then
    let content_start := pyFindFrom html_content ">".data skills_section_start + 1
    let content_end := pyRFind html_content "<".data skills_section_start skills_section_end
    if content_start ≠ -1 ∧ content_end ≠ -1 then
      pySliceTo html_content content_start ++ skills_html
      ++ pySliceFrom html_content content_end
    else
      pySliceTo html_content skills_section_start
      ++ "<section class=\"resume-section\"><h2 class=\"section-title\">Technical Skills</h2>".data
      ++ skills_html
      ++ "</section>".data
      ++ pySliceFrom html_content skills_section_end
  else html_content

/-- `_render_resume_template` (`pdf_service.py` lines 171-235), with the
template file's content passed in as `template_content` (the source reads it
from disk) and the unused `theme_options` parameter kept.  When experience
data is present, `experience_html` is computed (line 194) but the branch
only strips the block markers and performs self-replacements of the
placeholders (lines 195-206), so the computed HTML is never inserted. -/
def render_resume_template (template_content : List Char) (resume_data : ResumeData)
    (theme_options : Option ThemeOptions) : List Char :=
  let h0 := template_content
  let h1 := pyReplace h0 mTitle (resume_data.title.getD "").data
  let h2 := pyReplace h1 mSummary (resume_data.summary.getD "").data
  let h3 :=
    if truthyList resume_data.experience then
      let _experience_html :=
        render_experience_section (resume_data.experience.getD [])
      let a1 := pyReplace h2 mIfExp []
      let a2 := pyReplace a1 mEndif []
      let a3 := pyReplace a2 mForExp []
      let a4 := pyReplace a3 mEndfor []
      let a5 := pyReplace a4 mExpRole mExpRole
      let a6 := pyReplace a5 mExpOrg mExpOrg
      let a7 := pyReplace a6 mExpLoc mExpLoc
      let a8 := pyReplace a7 mExpStart mExpStart
      let a9 := pyReplace a8 mExpEnd mExpEnd
      let a10 := pyReplace a9 mForBullet []
      let a11 := pyReplace a10 mEndfor []
      pyReplace a11 mBullet mBullet
    else
      remove_template_section h2 "experience"
  let h4 :=
    if truthyList resume_data.skills then
      splice_skills h3 (render_skills_section (resume_data.skills.getD []))
    else
      remove_template_section h3 "skills"
  let h5 :=
    if resume_data.summary.getD "" = "" then
      remove_template_section h4 "summary"
    else h4
  let _ := theme_options
  h5

/-!
## PDF service (`pdf_service.py` lines 21-129)

The Playwright call `_generate_pdf_with_playwright` is out-of-process I/O;
its outcome for one call is abstracted as a `RenderOutcome`: the engine
either produced the PDF bytes, or the `asyncio.wait_for` deadline expired
(`asyncio.TimeoutError`), or the engine raised some other exception.
The `options`/`pdf_options` dict only feeds that engine call, so it is
absorbed into the outcome.  PDF bytes are modelled as `List Nat`.
-/

/-- Outcome of the governed render call (`pdf_service.py` lines 72-75). -/
inductive RenderOutcome where
  | success (pdf : List Nat)
  | timeout
  | failure (msg : String)
deriving DecidableEq

/-- `self.max_pdf_size = 1.5 * 1024 * 1024` (`pdf_service.py` line 25).
The Python value is the float `1572864.0`; `len(pdf_bytes)` is an integer,
and `len > 1572864.0` holds exactly when `len > 1572864`. -/
def max_pdf_size : Nat := 1572864

/-- `self.max_generation_time = 30` seconds (`pdf_service.py` line 26). -/
def max_generation_time : Nat := 30

/-- A structured error-detail body as built by the source's
`HTTPException(status_code=..., detail={...})` dicts: the `error` kind,
the human `message`, a `suggestion`, and (for the size error) the measured
and maximum sizes.  The source reports the sizes as floats in megabytes
(`len/(1024*1024)`); they are carried here in bytes. -/
structure ErrDetail where
  error : String
  message : String
  suggestion : String
  actual_size : Option Nat
  max_size : Option Nat
deriving DecidableEq

/-- A Python exception escaping the service layer: either a FastAPI
`HTTPException` (status code plus detail dict) or a `PDFGenerationError`
(bare message string). -/
inductive PyExc where
  | httpExc (statusCode : Nat) (detail : ErrDetail)
  | pdfGenError (msg : String)
deriving DecidableEq

/-- Models Python's `str(e)` on a caught exception, as interpolated into
`f"Failed to generate PDF: {str(e)}"`.  The exact rendering is immaterial
to every claim; what matters is that stringification erases the structured
status code and detail dict. -/
def strOfExc : PyExc → String
  | PyExc.httpExc statusCode detail => toString statusCode ++ ": " ++ detail.message
  | PyExc.pdfGenError msg => msg

/-- The 413 `detail` dict (`pdf_service.py` lines 81-87). -/
def tooLargeDetail (actual : Nat) : ErrDetail :=
  { error := "PDF_TOO_LARGE"
    message := "Generated PDF exceeds size limit of 1.5MB"
    suggestion := "Consider reducing content or using a more compact layout"
    actual_size := some actual
    max_size := some max_pdf_size }

/-- The 408 `detail` dict (`pdf_service.py` lines 95-99). -/
def timeoutDetail : ErrDetail :=
  { error := "PDF_GENERATION_TIMEOUT"
    message := "PDF generation timed out after 30 seconds"
    suggestion := "Try with simpler content or contact support if the issue persists"
    actual_size := none
    max_size := none }

/-- `PDFService.generate_pdf_from_html` (`pdf_service.py` lines 29-103).

Control flow of the source, embedded exactly:
* line 48: `if not html_content.strip()` raises `PDFGenerationError`
  before the engine is invoked;
* an `asyncio.TimeoutError` from `wait_for` is caught on line 92 and the
  408 `HTTPException` raised inside that handler propagates;
* the 413 `HTTPException` raised on line 79 is raised *inside* the `try`
  block, so it is caught by the function's own `except Exception` handler
  on line 101 and re-raised as
  `PDFGenerationError(f"Failed to generate PDF: {str(e)}")`;
* any other engine exception is likewise wrapped by line 103. -/
def generate_pdf_from_html (html_content : List Char) (engine : RenderOutcome) :
    Except PyExc (List Nat) :=
  if pyStripL html_content = [] then
    Except.error (PyExc.pdfGenError "HTML content cannot be empty")
  else
    match engine with
    | RenderOutcome.timeout => Except.error (PyExc.httpExc 408 timeoutDetail)
    | RenderOutcome.failure msg =>
      Except.error (PyExc.pdfGenError ("Failed to generate PDF: " ++ msg))
    | RenderOutcome.success pdf_bytes =>
      if pdf_bytes.length > max_pdf_size then
        Except.error (PyExc.pdfGenError
          ("Failed to generate PDF: "
            ++ strOfExc (PyExc.httpExc 413 (tooLargeDetail pdf_bytes.length))))
      else
        Except.ok pdf_bytes

/-- `PDFService.generate_pdf_from_resume` (`pdf_service.py` lines 105-129):
renders the template, feeds the HTML to `generate_pdf_from_html`, and wraps
*every* exception — the 408 timeout `HTTPException` included — into
`PDFGenerationError(f"Failed to generate resume PDF: {str(e)}")`
(line 127's blanket `except Exception`). -/
def generate_pdf_from_resume (template_content : List Char) (resume_data : ResumeData)
    (theme_options : Option ThemeOptions) (engine : RenderOutcome) :
    Except PyExc (List Nat) :=
  let html_content := render_resume_template template_content resume_data theme_options
  match generate_pdf_from_html html_content engine with
  | Except.ok pdf => Except.ok pdf
  | Except.error e =>
    Except.error (PyExc.pdfGenError ("Failed to generate resume PDF: " ++ strOfExc e))

/-!
## HTTP routes (`api/export.py` lines 14-126)

A route's outcome is either a 200 PDF response (bytes plus attachment
filename) or an error response (status code plus detail dict).
-/

/-- The HTTP-level outcome of an export route. -/
inductive ApiResult where
  | pdfResponse (bytes : List Nat) (filename : String)
  | errorResponse (statusCode : Nat) (detail : ErrDetail)
deriving DecidableEq

/-- The 400 `detail` dict of `/export/pdf-from-html` (`export.py` lines 83-87). -/
def missingHtmlDetail : ErrDetail :=
  { error := "MISSING_HTML_CONTENT"
    message := "HTML content is required"
    suggestion := "Please provide valid HTML content in the request body"
    actual_size := none
    max_size := none }

/-- The 500 `detail` dict built from a caught `PDFGenerationError`
(`export.py` lines 47-51 and 111-115). -/
def pdfGenFailedDetail (msg suggestion : String) : ErrDetail :=
  { error := "PDF_GENERATION_FAILED"
    message := msg
    suggestion := suggestion
    actual_size := none
    max_size := none }

/-- The generic 500 `detail` dict (`export.py` lines 57-61 and 121-125). -/
def internalErrorDetail : ErrDetail :=
  { error := "INTERNAL_SERVER_ERROR"
    message := "An unexpected error occurred during PDF generation"
    suggestion := "Please try again or contact support if the issue persists"
    actual_size := none
    max_size := none }

/-- `POST /export/pdf-from-html` (`export.py` lines 65-126).
`body.get("html_content")` is `none` when the key is missing; the falsiness
check `if not html_content` rejects both a missing key and the empty string
with 400.  A service `HTTPException` is re-raised as-is (line 104-106); a
`PDFGenerationError` becomes a 500 `PDF_GENERATION_FAILED` (lines 107-116). -/
def export_pdf_from_html (html_content : Option String) (filename : Option String)
    (engine : RenderOutcome) : ApiResult :=
  let fname := filename.getD "document.pdf"
  match html_content with
  | none => ApiResult.errorResponse 400 missingHtmlDetail
  | some h =>
    if h = "" then ApiResult.errorResponse 400 missingHtmlDetail
    else
      match generate_pdf_from_html h.data engine with
      | Except.ok pdf_bytes => ApiResult.pdfResponse pdf_bytes fname
      | Except.error (PyExc.httpExc st d) => ApiResult.errorResponse st d
      | Except.error (PyExc.pdfGenError m) =>
        ApiResult.errorResponse 500
          (pdfGenFailedDetail m "Please check your HTML content and try again")

/-- The derived attachment filename of `/export/pdf`
(`export.py` line 30): `resume.title.replace(' ', '_').lower()`. -/
def resumeFilename (resume_data : ResumeData) : String :=
  String.mk ((pyReplace (resume_data.title.getD "").data " ".data "_".data).map
    Char.toLower) ++ "_resume.pdf"

/-- `POST /export/pdf` (`export.py` lines 14-62).  The route has handlers
only for `PDFGenerationError` (500 `PDF_GENERATION_FAILED`) and generic
`Exception` (500 `INTERNAL_SERVER_ERROR`); there is no `HTTPException`
re-raise clause, and `generate_pdf_from_resume` wraps every failure into
`PDFGenerationError` anyway, so no 408/413 status can ever escape here. -/
def export_resume_pdf (template_content : List Char) (resume_data : ResumeData)
    (engine : RenderOutcome) : ApiResult :=
  match generate_pdf_from_resume template_content resume_data none engine with
  | Except.ok pdf_bytes => ApiResult.pdfResponse pdf_bytes (resumeFilename resume_data)
  | Except.error (PyExc.pdfGenError m) =>
    ApiResult.errorResponse 500
      (pdfGenFailedDetail m "Please check your resume data and try again")
  | Except.error (PyExc.httpExc _ _) => ApiResult.errorResponse 500 internalErrorDetail

/-!
## `generate_experience_html` (`api/export.py` lines 301-324)

This helper of the `/export/html` route reads attribute access
(`exp.role`, `exp.endDate`, ...) on experience objects.
-/

/-- An experience object as read by `generate_experience_html`. -/
structure ExpObj where
  role : String
  organization : String
  location : Option String
  startDate : String
  endDate : Option String
  bullets : List String
deriving DecidableEq

/-- The inline location suffix `f" • {exp.location}" if exp.location else ""`
(`export.py` line 306). -/
def location_suffix (x : ExpObj) : List Char :=
  if x.location.getD "" = "" then []
  else " • ".data ++ (x.location.getD "").data

/-- One entry of `generate_experience_html` (`export.py` lines 304-322):
`end_date = exp.endDate if exp.endDate else "Present"`. -/
def gen_experience_item (x : ExpObj) : List Char :=
  let end_date : List Char :=
    if x.endDate.getD "" = "" then "Present".data else (x.endDate.getD "").data
  "\n        <div class=\"experience-item\">\n            <div class=\"role\">".data
  ++ x.role.data
  ++ "</div>\n            <div class=\"organization\">".data
  ++ x.organization.data
  ++ location_suffix x
  ++ "</div>\n            <div class=\"dates\">".data
  ++ x.startDate.data
  ++ " - ".data
  ++ end_date
  ++ "</div>\n            <ul class=\"bullets\">\n        ".data
  ++ (x.bullets.map (fun b => "<li>".data ++ b.data ++ "</li>".data)).flatten
  ++ "\n            </ul>\n        </div>\n        ".data

/-- `generate_experience_html` (`export.py` lines 301-324). -/
def generate_experience_html (experience : List ExpObj) : List Char :=
  (experience.map gen_experience_item).flatten

/-!
## Template asset

Modelled from the spec: the static template asset
`backend-app/templates/resume_template.html` referenced by
`PDFService.__init__` (line 27) is not under `src/`.  Per the spec it is
"a single static HTML template asset ... fixed markup with named
placeholders and named repeatable blocks"; its markers are exactly the
literal strings `_render_resume_template` searches for (scalar `title` and
`summary` placeholders, a `Summary` section delimited by
`<!-- Summary -->`/`<!-- /Summary -->`, an `experience` block with
per-entry placeholders, and a `skills` block with a section heading).
-/

def templateAsset : List Char :=
  ("<html>\n<body>\n<h1>\x7b\x7b title \x7d\x7d</h1>\n<!-- Summary -->\n<section class=\"resume-section\"><h2 class=\"section-title\">Summary</h2>\n<p>\x7b\x7b summary \x7d\x7d</p></section>\n<!-- /Summary -->\n\x7b% if experience %\x7d\n<section class=\"resume-section\"><h2 class=\"section-title\">Experience</h2>\n\x7b% for exp in experience %\x7d\n<div class=\"experience-item\"><h3>\x7b\x7b exp.role \x7d\x7d</h3>\n<p>\x7b\x7b exp.organization \x7d\x7d \x7b\x7b exp.location \x7d\x7d</p>\n<p>\x7b\x7b exp.startDate \x7d\x7d - \x7b\x7b exp.endDate or \x27Present\x27 \x7d\x7d</p>\n<ul>\x7b% for bullet in exp.bullets %\x7d<li>\x7b\x7b bullet \x7d\x7d</li>\x7b% endfor %\x7d</ul></div>\n\x7b% endfor %\x7d\n</section>\n\x7b% endif %\x7d\n\x7b% if skills %\x7d\n<section class=\"resume-section\"><h2 class=\"section-title\">Technical Skills</h2>\n<div class=\"skills-body\"></div>\n</section>\n\x7b% endif %\x7d\n</body>\n</html>\n").data

/-!
## Concrete inputs used by the claim theorems
-/

/-- A PDF payload one byte over the 1.5 MiB ceiling. -/
def bigPdf : List Nat := List.replicate 1572865 0

/-- A minimal resume dict (title and summary only). -/
def resumeSmall : ResumeData := ResumeData.mk (some "T") (some "S") none none

/-- A resume dict with no `skills` key. -/
def resumeNoSkills : ResumeData :=
  ResumeData.mk (some "Jane Doe") (some "Seasoned engineer") none none

/-- A resume dict whose `skills` value is the empty list. -/
def resumeEmptySkills : ResumeData :=
  ResumeData.mk (some "Jane Doe") (some "Seasoned engineer") none (some [])

/-- A resume dict whose title and summary carry raw HTML markup. -/
def resumeInjection : ResumeData :=
  ResumeData.mk (some "<script>alert(1)</script>") (some "A & B <i>i</i>") none none

/-- A concrete experience entry with every field present. -/
def expSample : ExpEntry :=
  ExpEntry.mk (some "Software Engineer") (some "Acme Corp") (some "NYC")
    (some "2020-01") none (some ["shipped it"])

/-- A resume dict with one experience entry. -/
def resumeWithExp : ResumeData :=
  ResumeData.mk (some "T") (some "S") (some [expSample]) none

/-- A concrete experience entry with `endDate` absent. -/
def sampleEntryOpen : ExpEntry :=
  ExpEntry.mk (some "Dev") (some "Acme") (some "NYC") (some "2020-01") none
    (some ["built"])

/-- A concrete experience entry with `location` absent. -/
def sampleEntryNoLoc : ExpEntry :=
  ExpEntry.mk (some "Dev") (some "Acme") none (some "2020-01") (some "2021-02")
    (some ["built"])

/-- Decidable equality for `Except`, needed to settle concrete service
results by `decide`. -/
instance {e a : Type} [DecidableEq e] [DecidableEq a] : DecidableEq (Except e a) :=
  fun x y =>
    match x, y with
    | Except.ok v, Except.ok w =>
      if h : v = w then isTrue (by rw [h]) else isFalse (by simp [h])
    | Except.error v, Except.error w =>
      if h : v = w then isTrue (by rw [h]) else isFalse (by simp [h])
    | Except.ok _, Except.error _ => isFalse (by simp)
    | Except.error _, Except.ok _ => isFalse (by simp)

/-!
## Helper lemmas
-/

/-- A list is a prefix of itself followed by anything. -/
theorem isPrefixOf_append_self (l t : List Char) : l.isPrefixOf (l ++ t) = true := by
  induction l with
  | nil => simp [List.isPrefixOf]
  | cons c cs ih =>
    simp only [List.cons_append, List.isPrefixOf_cons₂_self]
    exact ih

/-- `hasSub` is preserved by prepending. -/
theorem hasSub_append_left (a s pat : List Char) (h : hasSub s pat = true) :
    hasSub (a ++ s) pat = true := by
  induction a with
  | nil => simpa using h
  | cons c cs ih =>
    simp only [List.cons_append, hasSub, Bool.or_eq_true]
    exact Or.inr ih

/-- `hasSub` holds when the pattern occurs at the front. -/
theorem hasSub_self_append (pat t : List Char) : hasSub (pat ++ t) pat = true := by
  cases pat with
  | nil =>
    cases t with
    | nil => rfl
    | cons c cs => simp [hasSub]
  | cons c cs =>
    simp only [List.cons_append, hasSub, Bool.or_eq_true]
    exact Or.inl (isPrefixOf_append_self (c :: cs) t)

/-- The pattern occurs in any string of the shape `a ++ pat ++ b`. -/
theorem hasSub_of_middle (a pat b : List Char) :
    hasSub (a ++ (pat ++ b)) pat = true :=
  hasSub_append_left a (pat ++ b) pat (hasSub_self_append pat b)

/-- A string of whitespace strips to the empty string. -/
theorem pyStripL_of_all_space (s : List Char) (h : ∀ c ∈ s, isPySpace c = true) :
    pyStripL s = [] := by
  unfold pyStripL
  have h1 : s.dropWhile isPySpace = [] := by
    rw [List.dropWhile_eq_nil_iff]
    exact h
  simp [h1]

/-!
## Shared facts about the service layer
-/

/-- On an oversized engine result, `generate_pdf_from_html` surfaces a
`PDFGenerationError` whose message merely embeds the stringified 413: the
size limit's `HTTPException` is raised inside the `try` block and swallowed
by the function's own `except Exception`. -/
theorem oversized_service_result :
    generate_pdf_from_html "<p>big</p>".data (RenderOutcome.success bigPdf) =
      Except.error (PyExc.pdfGenError
        ("Failed to generate PDF: "
          ++ strOfExc (PyExc.httpExc 413 (tooLargeDetail bigPdf.length)))) := by
  unfold generate_pdf_from_html
  rw [if_neg (by decide : ¬(pyStripL "<p>big</p>".data = []))]
  have hgt : bigPdf.length > max_pdf_size := by
    rw [bigPdf, List.length_replicate]
    decide
  simp only [hgt, if_pos]

/-- The only `HTTPException` `generate_pdf_from_html` can let escape is the
408 timeout raised inside the `except asyncio.TimeoutError` handler. -/
theorem generate_pdf_from_html_httpExc_inv (html_content : List Char)
    (engine : RenderOutcome) (st : Nat) (d : ErrDetail)
    (h : generate_pdf_from_html html_content engine =
      Except.error (PyExc.httpExc st d)) : st = 408 ∧ d = timeoutDetail := by
  unfold generate_pdf_from_html at h
  by_cases hs : pyStripL html_content = []
  · rw [if_pos hs] at h
    simp at h
  · rw [if_neg hs] at h
    cases engine with
    | timeout =>
      simp only [Except.error.injEq, PyExc.httpExc.injEq] at h
      exact ⟨h.1.symm, h.2.symm⟩
    | failure msg => simp at h
    | success pdf =>
      by_cases hb : pdf.length > max_pdf_size
      · simp [hb] at h
      · simp [hb] at h

/-!
## Claim theorems
-/

/-- C1: the claim says an oversized PDF makes `generate_pdf_from_html`
return a TooLarge error carrying the measured and maximum sizes.  In the
code the 413 `HTTPException` built with those sizes is raised inside the
`try` block and caught by the function's own blanket `except Exception`,
which re-raises it as a `PDFGenerationError` whose message merely embeds
the stringified exception; no structured TooLarge/413 error ever escapes.
(The bytes are still never returned, so the size invariant half holds.) -/
theorem c1_oversized_output_misclassified :
    bigPdf.length > max_pdf_size ∧
    (∀ d : ErrDetail,
      generate_pdf_from_html "<p>big</p>".data (RenderOutcome.success bigPdf) ≠
        Except.error (PyExc.httpExc 413 d)) ∧
    generate_pdf_from_html "<p>big</p>".data (RenderOutcome.success bigPdf) =
      Except.error (PyExc.pdfGenError
        ("Failed to generate PDF: "
          ++ strOfExc (PyExc.httpExc 413 (tooLargeDetail bigPdf.length)))) := by
  refine ⟨?_, ?_, oversized_service_result⟩
  · rw [bigPdf, List.length_replicate]
    decide
  · intro d hd
    rw [oversized_service_result] at hd
    simp at hd

/-- The `/export/pdf-from-html` route turns a `PDFGenerationError` from the
service into a 500 `PDF_GENERATION_FAILED` response (`export.py` 107-116). -/
theorem route_maps_pdfGenError (h : String) (hne : h ≠ "") (engine : RenderOutcome)
    (m : String)
    (hsvc : generate_pdf_from_html h.data engine =
      Except.error (PyExc.pdfGenError m)) :
    export_pdf_from_html (some h) none engine =
      ApiResult.errorResponse 500
        (pdfGenFailedDetail m "Please check your HTML content and try again") := by
  unfold export_pdf_from_html
  dsimp only
  rw [if_neg hne, hsvc]

/-- C2: the claim says an oversized export is answered with HTTP 413 and a
machine-readable TooLarge kind.  Because the service converts the 413 into
a `PDFGenerationError` (see C1), the `/export/pdf-from-html` route's
`except PDFGenerationError` handler answers 500 `PDF_GENERATION_FAILED`
instead; no 413 response is possible for this input. -/
theorem c2_oversized_http_status_500_not_413 :
    export_pdf_from_html (some "<p>big</p>") none (RenderOutcome.success bigPdf) =
      ApiResult.errorResponse 500
        (pdfGenFailedDetail
          ("Failed to generate PDF: "
            ++ strOfExc (PyExc.httpExc 413 (tooLargeDetail bigPdf.length)))
          "Please check your HTML content and try again") ∧
    (∀ d : ErrDetail,
      export_pdf_from_html (some "<p>big</p>") none (RenderOutcome.success bigPdf) ≠
        ApiResult.errorResponse 413 d) := by
  have hmain := route_maps_pdfGenError "<p>big</p>" (by decide)
    (RenderOutcome.success bigPdf) _ oversized_service_result
  refine ⟨hmain, ?_⟩
  intro d hd
  rw [hmain] at hd
  simp at hd

set_option maxRecDepth 40000 in
/-- C3: on deadline expiry the service does raise the 408 Timeout
`HTTPException`, and `/export/pdf-from-html` re-raises it, so the raw-HTML
entry point answers 408.  But `generate_pdf_from_resume` wraps every
exception — this 408 included — into `PDFGenerationError`, so the resume
entry point `/export/pdf` answers 500 `PDF_GENERATION_FAILED` instead of
the claimed 408. -/
theorem c3_timeout_408_on_html_route_but_500_on_resume_route :
    generate_pdf_from_html "<p>x</p>".data RenderOutcome.timeout =
      Except.error (PyExc.httpExc 408 timeoutDetail) ∧
    export_pdf_from_html (some "<p>x</p>") none RenderOutcome.timeout =
      ApiResult.errorResponse 408 timeoutDetail ∧
    export_resume_pdf templateAsset resumeSmall RenderOutcome.timeout =
      ApiResult.errorResponse 500
        (pdfGenFailedDetail
          ("Failed to generate resume PDF: "
            ++ strOfExc (PyExc.httpExc 408 timeoutDetail))
          "Please check your resume data and try again") := by
  refine ⟨by decide, by decide, ?_⟩
  decide

/-- C8: for a fixed template asset, resume record and theme options,
repeated calls to the template renderer return byte-identical HTML.  The
embedded renderer is a pure function of exactly these inputs (the source
reads only the fixed template file and consults no other state, clock or
randomness), so two-run determinism holds definitionally. -/
theorem c8_render_deterministic (template_content : List Char)
    (resume_data : ResumeData) (theme_options : Option ThemeOptions) :
    render_resume_template template_content resume_data theme_options =
      render_resume_template template_content resume_data theme_options := rfl

set_option maxRecDepth 10000 in
/-- C4: the claim says a resume with empty or absent skills produces HTML
with no "Skills" section heading (and generally that empty sections are
elided).  In the code, `_remove_template_section` is a no-op for every
section name except `summary`, so the template's skills section — heading
included — survives verbatim in the rendered output when the skills data
is absent (`resumeNoSkills`) or the empty list (`resumeEmptySkills`). -/
theorem c4_empty_skills_section_not_elided :
    (∀ h : List Char, remove_template_section h "skills" = h) ∧
    (∀ h : List Char, remove_template_section h "experience" = h) ∧
    hasSub (render_resume_template templateAsset resumeNoSkills none)
      "<h2 class=\"section-title\">Technical Skills</h2>".data = true ∧
    hasSub (render_resume_template templateAsset resumeEmptySkills none)
      "<h2 class=\"section-title\">Technical Skills</h2>".data = true := by
  refine ⟨?_, ?_, by decide, by decide⟩
  · intro h
    unfold remove_template_section
    rw [if_neg (by decide : ¬(("skills" : String) = "summary"))]
  · intro h
    unfold remove_template_section
    rw [if_neg (by decide : ¬(("experience" : String) = "summary"))]

set_option maxRecDepth 10000 in
/-- C5: the claim says the `title` and `summary` substitutions are
HTML-escaped.  The code substitutes both verbatim
(`html_content.replace('\x7b\x7b title \x7d\x7d', resume_data.get('title', ''))`),
so raw markup placed in the title and summary appears unchanged in the
output and no escaped entities are produced. -/
theorem c5_title_summary_substituted_verbatim_unescaped :
    hasSub (render_resume_template templateAsset resumeInjection none)
      "<script>alert(1)</script>".data = true ∧
    hasSub (render_resume_template templateAsset resumeInjection none)
      "A & B <i>i</i>".data = true ∧
    hasSub (render_resume_template templateAsset resumeInjection none)
      "&lt;".data = false ∧
    hasSub (render_resume_template templateAsset resumeInjection none)
      "&amp;".data = false := by
  exact ⟨by decide, by decide, by decide, by decide⟩

/-- C6: `/export/pdf-from-html` rejects an empty `html_content` with
400 `MISSING_HTML_CONTENT` before the engine is ever consulted (the
response is the same for every engine outcome), and for any non-empty
string the route's validation passes — no 400 is possible — and the
request proceeds to PDF conversion (a successful engine outcome within the
size ceiling is returned as the PDF response). -/
theorem c6_empty_html_400_nonempty_proceeds :
    (∀ engine : RenderOutcome,
      export_pdf_from_html (some "") none engine =
        ApiResult.errorResponse 400 missingHtmlDetail) ∧
    (∀ (h : String) (engine : RenderOutcome) (d : ErrDetail), h ≠ "" →
      export_pdf_from_html (some h) none engine ≠ ApiResult.errorResponse 400 d) ∧
    (∀ (h : String) (pdf : List Nat), pyStripL h.data ≠ [] →
      pdf.length ≤ max_pdf_size →
      export_pdf_from_html (some h) none (RenderOutcome.success pdf) =
        ApiResult.pdfResponse pdf "document.pdf") := by
  refine ⟨?_, ?_, ?_⟩
  · intro engine
    unfold export_pdf_from_html
    dsimp only
    rw [if_pos rfl]
  · intro h engine d hne hcontra
    unfold export_pdf_from_html at hcontra
    dsimp only at hcontra
    rw [if_neg hne] at hcontra
    cases hsvc : generate_pdf_from_html h.data engine with
    | ok pdf =>
      rw [hsvc] at hcontra
      simp at hcontra
    | error e =>
      cases e with
      | httpExc st dd =>
        have hinv := generate_pdf_from_html_httpExc_inv h.data engine st dd hsvc
        rw [hsvc] at hcontra
        simp only [ApiResult.errorResponse.injEq] at hcontra
        rw [hinv.1] at hcontra
        simp at hcontra
      | pdfGenError m =>
        rw [hsvc] at hcontra
        simp at hcontra
  · intro h pdf hs hle
    have hne : h ≠ "" := by
      intro e
      rw [e] at hs
      exact hs rfl
    have hsvc : generate_pdf_from_html h.data (RenderOutcome.success pdf) =
        Except.ok pdf := by
      unfold generate_pdf_from_html
      rw [if_neg hs]
      dsimp only
      rw [if_neg (Nat.not_lt.mpr hle)]
    unfold export_pdf_from_html
    dsimp only
    rw [if_neg hne, hsvc]
    rfl

/-- Witness for C6 at a concrete request. -/
theorem c6_witness :
    export_pdf_from_html (some "<p>hi</p>") none (RenderOutcome.success [1, 2, 3]) =
      ApiResult.pdfResponse [1, 2, 3] "document.pdf" :=
  c6_empty_html_400_nonempty_proceeds.2.2 "<p>hi</p>" [1, 2, 3]
    (by decide) (by decide)

/-- C10: a non-empty but all-whitespace `html_content` passes the route's
falsiness check, then fails `generate_pdf_from_html`'s `.strip()` check,
which raises `PDFGenerationError` before the engine is invoked (the
response is the same for every engine outcome); the route therefore
answers 500 `PDF_GENERATION_FAILED`, not 400. -/
theorem c10_whitespace_only_html_answered_500_not_400 (h : String)
    (engine : RenderOutcome) (hne : h ≠ "")
    (hws : ∀ c ∈ h.data, isPySpace c = true) :
    export_pdf_from_html (some h) none engine =
      ApiResult.errorResponse 500
        (pdfGenFailedDetail "HTML content cannot be empty"
          "Please check your HTML content and try again") := by
  have hstrip : pyStripL h.data = [] := pyStripL_of_all_space h.data hws
  have hsvc : generate_pdf_from_html h.data engine =
      Except.error (PyExc.pdfGenError "HTML content cannot be empty") := by
    unfold generate_pdf_from_html
    rw [if_pos hstrip]
  exact route_maps_pdfGenError h hne engine _ hsvc

/-- Witness for C10 at a concrete whitespace-only request. -/
theorem c10_witness :
    export_pdf_from_html (some " \n\t ") none RenderOutcome.timeout =
      ApiResult.errorResponse 500
        (pdfGenFailedDetail "HTML content cannot be empty"
          "Please check your HTML content and try again") :=
  c10_whitespace_only_html_answered_500_not_400 " \n\t " RenderOutcome.timeout
    (by decide) (by decide)

/-- Containment via an explicit decomposition. -/
theorem hasSub_of_parts (s a pat b : List Char) (hs : s = a ++ (pat ++ b)) :
    hasSub s pat = true := by
  rw [hs]
  exact hasSub_of_middle a pat b

set_option maxRecDepth 40000 in
/-- C7: an experience entry with a null/absent `endDate` renders its date
range as `startDate - Present`, and an absent `location` contributes no
markup at all (the location `<div>` of `_render_experience_section`, and
the ` • location` suffix of `generate_experience_html`, are both the empty
string), rather than rendering null or an empty element. -/
theorem c7_present_end_date_and_omitted_location :
    (∀ e : ExpEntry, e.endDate = none →
      hasSub (render_experience_item e)
        ((e.startDate.getD "").data ++ " - Present".data) = true) ∧
    (∀ e : ExpEntry, e.location = none → location_div e = []) ∧
    hasSub (render_experience_item sampleEntryNoLoc)
      "experience-location".data = false ∧
    (∀ x : ExpObj, x.endDate = none →
      hasSub (gen_experience_item x)
        (x.startDate.data ++ " - Present".data) = true) ∧
    (∀ x : ExpObj, x.location = none → location_suffix x = []) := by
  refine ⟨?_, ?_, by decide, ?_, ?_⟩
  · intro e he
    apply hasSub_of_parts _
      ("\n            <div class=\"experience-item\">\n                <div class=\"experience-header\">\n                    <div>\n                        <div class=\"experience-role\">".data
        ++ ((e.role.getD "").data
        ++ ("</div>\n                        <div class=\"experience-organization\">".data
        ++ ((e.organization.getD "").data
        ++ ("</div>\n                        ".data
        ++ (location_div e
        ++ "\n                    </div>\n                    <div class=\"experience-dates\">\n                        ".data))))))
      _
      ("\n                    </div>\n                </div>\n                ".data
        ++ (bullets_html e ++ "\n            </div>\n            ".data))
    have hsplit : (" - Present").data = (" - ").data ++ ("Present").data := by decide
    simp [render_experience_item, he, hsplit, List.append_assoc]
  · intro e he
    simp [location_div, he]
  · intro x hx
    apply hasSub_of_parts _
      ("\n        <div class=\"experience-item\">\n            <div class=\"role\">".data
        ++ (x.role.data
        ++ ("</div>\n            <div class=\"organization\">".data
        ++ (x.organization.data
        ++ (location_suffix x
        ++ "</div>\n            <div class=\"dates\">".data)))))
      _
      ("</div>\n            <ul class=\"bullets\">\n        ".data
        ++ ((x.bullets.map (fun b => "<li>".data ++ b.data ++ "</li>".data)).flatten
        ++ "\n            </ul>\n        </div>\n        ".data))
    have hsplit : (" - Present").data = (" - ").data ++ ("Present").data := by decide
    simp [gen_experience_item, hx, hsplit, List.append_assoc]
  · intro x hx
    simp [location_suffix, hx]

/-- Witness for C7 at concrete entries. -/
theorem c7_witness :
    hasSub (render_experience_item sampleEntryOpen)
      ((sampleEntryOpen.startDate.getD "").data ++ " - Present".data) = true ∧
    location_div sampleEntryNoLoc = [] ∧
    hasSub (gen_experience_item
        (ExpObj.mk "Dev" "Acme" none "2020-01" none ["built"]))
      (("2020-01" : String).data ++ " - Present".data) = true ∧
    location_suffix (ExpObj.mk "Dev" "Acme" none "2020-01" none ["built"]) = [] :=
  ⟨c7_present_end_date_and_omitted_location.1 sampleEntryOpen rfl,
   c7_present_end_date_and_omitted_location.2.1 sampleEntryNoLoc rfl,
   c7_present_end_date_and_omitted_location.2.2.2.1
     (ExpObj.mk "Dev" "Acme" none "2020-01" none ["built"]) rfl,
   c7_present_end_date_and_omitted_location.2.2.2.2
     (ExpObj.mk "Dev" "Acme" none "2020-01" none ["built"]) rfl⟩

set_option maxRecDepth 40000 in
/-- C9: when the experience list is non-empty, `_render_resume_template`
computes `_render_experience_section(...)` into a local that is never used:
the branch only strips block markers and replaces each experience
placeholder by itself.  Hence the rendered output is identical for any two
non-empty experience lists (the entries' content cannot reach the output),
and on the concrete template the literal placeholders survive while the
entries' field values are absent. -/
theorem c9_experience_html_never_inserted :
    (∀ (template_content : List Char) (title summary : Option String)
       (skills : Option (List SkillItem)) (theme_options : Option ThemeOptions)
       (e1 e2 : List ExpEntry), e1 ≠ [] → e2 ≠ [] →
      render_resume_template template_content
        (ResumeData.mk title summary (some e1) skills) theme_options =
      render_resume_template template_content
        (ResumeData.mk title summary (some e2) skills) theme_options) ∧
    hasSub (render_resume_template templateAsset resumeWithExp none) mExpRole = true ∧
    hasSub (render_resume_template templateAsset resumeWithExp none) mBullet = true ∧
    hasSub (render_resume_template templateAsset resumeWithExp none)
      "Software Engineer".data = false ∧
    hasSub (render_resume_template templateAsset resumeWithExp none)
      "Acme Corp".data = false := by
  refine ⟨?_, by decide, by decide, by decide, by decide⟩
  intro template_content title summary skills theme_options e1 e2 h1 h2
  cases e1 with
  | nil => exact absurd rfl h1
  | cons a l =>
    cases e2 with
    | nil => exact absurd rfl h2
    | cons b m => rfl

/-- Witness for C9: two different non-empty experience lists yield the
same rendered HTML. -/
theorem c9_witness :
    render_resume_template templateAsset
      (ResumeData.mk (some "T") (some "S") (some [expSample]) none) none =
    render_resume_template templateAsset
      (ResumeData.mk (some "T") (some "S") (some [expSample, expSample]) none) none :=
  c9_experience_html_never_inserted.1 templateAsset (some "T") (some "S") none none
    [expSample] [expSample, expSample] (by decide) (by decide)
